import Mathlib

/-!
Verification of the `lstt` sticker-migration pipeline (`src/lstt.py`).

The script is a four-stage batch pipeline over a keyed collection of
sticker records:

1. `get_stickers_urls` (Source Lister) scrapes an HTML page for sticker URLs;
2. `download_stickers` (Fetcher) downloads each URL to a local file;
3. `resize_stickers` (Transcoder) resizes each raw image to Telegram's
   512-pixel constraint;
4. `create_telegram_sticker_set` (Publisher) creates the remote sticker set
   with the first available item and appends the rest.

The embedding below models the external collaborators as oracles:

* the HTTP client is a function `String → Except HttpFailure String`
  (url to body), distinguishing `requests.HTTPError` (raised by
  `raise_for_status`, and the only exception class the Fetcher catches)
  from transport-level errors (`requests.ConnectionError`/`Timeout`,
  which are `RequestException`s but not `HTTPError`s, hence uncaught);
* the image decoder is a function `String → Option (Nat × Nat)` mapping a
  file path to its pixel dimensions, `none` for a corrupt/undecodable file
  (`PIL.Image.open` raising `UnidentifiedImageError`);
* the local filesystem is the list of file paths that exist (file contents
  play no role in any claim);
* the Telegram bot API is a function `ApiCall → Bool` telling whether a
  given create/append call succeeds (`false` models a raised
  `telegram.error.TelegramError`).

Python dictionaries are modelled as association lists in insertion order.
Mutation of the shared per-id record dict is modelled by returning updated
records.  Uncaught Python exceptions are modelled with `Except`: an
`Except.error` result is a run that died with that exception.

Arithmetic note for the Transcoder: the script computes
`coefficient = max(w, h) / 512` and `int(w / coefficient)` in IEEE double
precision.  Since `w` and `h` are integers far below `2 ^ 53`, the division
by `512 = 2 ^ 9` is exact, and `int(side / coefficient)` equals
`side * 512 / max w h` in natural-number (floor) division for all image
dimensions below `2 ^ 44`, which covers every image PIL can represent; the
embedding therefore uses exact natural-number floor division.
-/

namespace Lstt

/-- A per-item record, one per sticker id (`sticker_data[sid]` in the
script): the scraped source `url`, the downloaded file (`raw_path`,
`none` after a failed download) and the resized file (`resized_path`,
`none` when the raw image was absent). -/
structure StickerRecord where
  url : String
  raw_path : Option String
  resized_path : Option String
deriving DecidableEq

/-- Outcome of `requests.get(url)` followed by `raise_for_status()`:
either the body, a `requests.HTTPError` for a non-success status, or a
transport-level failure (`requests.ConnectionError`, `Timeout`, ...)
which is not an `HTTPError`. -/
inductive HttpFailure where
  | status (msg : String)
  | transport (msg : String)
deriving DecidableEq

/-- Result of a `download_stickers` run that did not die with an uncaught
exception: the updated records, the filesystem afterwards, and the urls
requested over the network, in order. -/
structure FetchResult where
  records : List (String × StickerRecord)
  fs : List String
  calls : List String
deriving DecidableEq

/-- One file written by `resized.save(resized_path)` in `resize_stickers`,
with the decoded raw dimensions and the computed output dimensions. -/
structure SavedImage where
  path : String
  rawW : Nat
  rawH : Nat
  newW : Nat
  newH : Nat
deriving DecidableEq

/-- Result of a `resize_stickers` run that did not die with an uncaught
exception: the updated records, the filesystem afterwards, and the images
decoded, resized and saved, in order. -/
structure ResizeResult where
  records : List (String × StickerRecord)
  fs : List String
  saved : List SavedImage
deriving DecidableEq

/-- A remote bot-API call issued by `create_telegram_sticker_set`:
`bot.create_new_sticker_set(user_id, name, title, [sticker], "static")`
or `bot.add_sticker_to_set(user_id, name, sticker)`.  The sticker is
identified by the resized file path it was opened from. -/
inductive ApiCall where
  | create (name title path : String)
  | append (name path : String)
deriving DecidableEq

/-- The sticker-set name an `ApiCall` is addressed to. -/
def callName : ApiCall → String
  | ApiCall.create n _ _ => n
  | ApiCall.append n _ => n

/-- Whether an `ApiCall` is a `create_new_sticker_set` call. -/
def isCreate : ApiCall → Bool
  | ApiCall.create _ _ _ => true
  | ApiCall.append _ _ => false

/-- Per-item result of the publish loop.  The script does not store these
in the records; they summarise what the loop did with each id:
`skipped` for `resized_path is None` (the `continue` branch), `published`
for a successful create/append, `failed` for a `TelegramError`, and
`notAttempted` for items after the `break` that follows a failed create
call. -/
inductive Outcome where
  | published
  | skipped
  | failed
  | notAttempted
deriving DecidableEq

/-- Result of the upload loop inside `create_telegram_sticker_set`: the
per-item outcomes in input order, the final `created` flag, and the remote
calls issued, in order. -/
structure LoopResult where
  outcomes : List (String × Outcome)
  created : Bool
  calls : List ApiCall
deriving DecidableEq

/-- Result of `create_telegram_sticker_set`: the (unmodified) records and
the returned sticker-set name (`sticker_set_name if created else None`),
together with the observable per-item outcomes and remote calls. -/
structure PublishResult where
  records : List (String × StickerRecord)
  outcomes : List (String × Outcome)
  setName : Option String
  calls : List ApiCall
deriving DecidableEq

/-! ## Publisher (`create_telegram_sticker_set`, `src/lstt.py` lines 19-78) -/

/-- The `for sid in sticker_data.keys()` upload loop of
`create_telegram_sticker_set`, lines 35-77.  An item with
`resized_path is None` is skipped (`continue`).  Otherwise, with
`created` still false a create call is issued: on success `created`
becomes true; on `TelegramError` the loop `break`s, leaving the remaining
items unattempted.  With `created` true an append call is issued: on
`TelegramError` the error is only printed and the loop continues
(line 77 `created = True` runs either way). -/
def publishLoop (api : ApiCall → Bool) (name title : String) :
    List (String × StickerRecord) → Bool → LoopResult
  | [], created => ⟨[], created, []⟩
  | (sid, r) :: rest, created =>
    match r.resized_path with
    | none =>
      let res := publishLoop api name title rest created
      ⟨(sid, Outcome.skipped) :: res.outcomes, res.created, res.calls⟩
    | some path =>
      let call := if created then ApiCall.append name path
                  else ApiCall.create name title path
      if api call then
        let res := publishLoop api name title rest true
        ⟨(sid, Outcome.published) :: res.outcomes, res.created, call :: res.calls⟩
      else if created then
        let res := publishLoop api name title rest true
        ⟨(sid, Outcome.failed) :: res.outcomes, res.created, call :: res.calls⟩
      else
        ⟨(sid, Outcome.failed) :: rest.map (fun p => (p.1, Outcome.notAttempted)),
         false, [call]⟩

/-- The Publisher, `create_telegram_sticker_set` (lines 19-78): suffixes
the requested name with `_by_<botusername>` (line 34), runs the upload
loop with `created = False`, and returns the records together with
`sticker_set_name if created else None` (line 78). -/
def create_telegram_sticker_set (api : ApiCall → Bool) (botUsername : String)
    (sticker_data : List (String × StickerRecord)) (sticker_set_name sticker_set_title : String) :
    PublishResult :=
  let finalName := sticker_set_name ++ "_by_" ++ botUsername
  let res := publishLoop api finalName sticker_set_title sticker_data false
  ⟨sticker_data, res.outcomes, if res.created then some finalName else none, res.calls⟩

/-! ## Fetcher (`download_stickers`, `src/lstt.py` lines 81-106) -/

/-- The Fetcher, `download_stickers` (lines 81-106).  For each id, with
`file_path = download_directory / f"{sid}.png"`: if the file already
exists the download is skipped and `raw_path` is set to it; otherwise a
GET is issued.  `raise_for_status()` failures (`requests.HTTPError`) are
caught: `raw_path` is set to `None`, a warning is printed, and the loop
continues.  A transport error raised by `requests.get` itself is *not* an
`HTTPError` and is not caught: the whole run dies (modelled as
`Except.error`).  (The `os.mkdir` of the download directory, lines 86-87,
is outside the loop and not modelled: the filesystem argument plays its
role.) -/
def download_stickers (http : String → Except HttpFailure String) (dir : String) :
    List (String × StickerRecord) → List String → Except String FetchResult
  | [], fs => Except.ok ⟨[], fs, []⟩
  | (sid, r) :: rest, fs =>
    let file_path := dir ++ "/" ++ sid ++ ".png"
    if fs.contains file_path then
      match download_stickers http dir rest fs with
      | Except.ok res =>
        Except.ok ⟨(sid, ⟨r.url, some file_path, r.resized_path⟩) :: res.records,
                   res.fs, res.calls⟩
      | Except.error e => Except.error e
    else
      match http r.url with
      | Except.ok _body =>
        match download_stickers http dir rest (file_path :: fs) with
        | Except.ok res =>
          Except.ok ⟨(sid, ⟨r.url, some file_path, r.resized_path⟩) :: res.records,
                     res.fs, r.url :: res.calls⟩
        | Except.error e => Except.error e
      | Except.error (HttpFailure.status _msg) =>
        match download_stickers http dir rest fs with
        | Except.ok res =>
          Except.ok ⟨(sid, ⟨r.url, none, r.resized_path⟩) :: res.records,
                     res.fs, r.url :: res.calls⟩
        | Except.error e => Except.error e
      | Except.error (HttpFailure.transport msg) => Except.error msg

/-! ## Transcoder (`resize_stickers`, `src/lstt.py` lines 181-206) -/

/-- The new dimensions computed at lines 198-202:
`coefficient = max(width, height) / 512` and
`(int(width / coefficient), int(height / coefficient))`, i.e. the floors
of `width * 512 / max` and `height * 512 / max` (see the arithmetic note
in the module docstring). -/
def resizeDims (w h : Nat) : Nat × Nat :=
  (w * 512 / max w h, h * 512 / max w h)

/-- The Transcoder, `resize_stickers` (lines 181-206).  An item with
`raw_path is None` gets `resized_path = None` and is otherwise untouched.
Otherwise, with `resized_path = download_directory / f"{sid}.resized.png"`:
if that file already exists it is reused without decoding anything.
Otherwise the raw file is decoded — there is *no* try/except here, so a
corrupt image (`Image.open` raising) kills the whole run — the new size
is computed (a zero-dimension image would raise `ZeroDivisionError` at
`raw.width / coefficient`), and the resized file is saved.  In every
non-raising path `resized_path` is recorded in the item. -/
def resize_stickers (decode : String → Option (Nat × Nat)) (dir : String) :
    List (String × StickerRecord) → List String → Except String ResizeResult
  | [], fs => Except.ok ⟨[], fs, []⟩
  | (sid, r) :: rest, fs =>
    match r.raw_path with
    | none =>
      match resize_stickers decode dir rest fs with
      | Except.ok res =>
        Except.ok ⟨(sid, ⟨r.url, r.raw_path, none⟩) :: res.records, res.fs, res.saved⟩
      | Except.error e => Except.error e
    | some raw_path =>
      let resized_path := dir ++ "/" ++ sid ++ ".resized.png"
      if fs.contains resized_path then
        match resize_stickers decode dir rest fs with
        | Except.ok res =>
          Except.ok ⟨(sid, ⟨r.url, r.raw_path, some resized_path⟩) :: res.records,
                     res.fs, res.saved⟩
        | Except.error e => Except.error e
      else
        match decode raw_path with
        | none => Except.error "UnidentifiedImageError"
        | some (w, h) =>
          if max w h = 0 then Except.error "ZeroDivisionError"
          else
            match resize_stickers decode dir rest (resized_path :: fs) with
            | Except.ok res =>
              Except.ok ⟨(sid, ⟨r.url, r.raw_path, some resized_path⟩) :: res.records,
                         res.fs,
                         ⟨resized_path, w, h, (resizeDims w h).1, (resizeDims w h).2⟩ :: res.saved⟩
            | Except.error e => Except.error e

/-! ## Source Lister (`get_stickers_urls`, `src/lstt.py` lines 109-126)

The HTML page is modelled as the list of its tags in document order, each
carrying its class tokens and optional `style` attribute.  The two
regular expressions of the script are embedded as concrete matchers:

* `re.compile(r".*Image$")` searched against a class token succeeds
  exactly when the token ends with `Image` (class tokens contain no
  newline); BeautifulSoup matches a multi-valued `class` attribute when
  any single token matches;
* the `background-image:url(...)` pattern is matched by a hand-rolled
  deterministic scanner.  The pattern is ambiguity-free: every
  quantified piece (`\d+` before a literal `/`, and the optional
  `;compress=true` before a literal `)`) can be matched greedily with no
  backtracking, so the scanner below computes exactly Python's
  `re.search`, including the unescaped `.` of `line-scdn.net` and
  `sticker.png` matching any non-newline character. -/

/-- A markup node: its class tokens (empty list for no `class` attribute)
and its `style` attribute if present. -/
structure HNode where
  classes : List String
  style : Option String
deriving DecidableEq

/-- Consume an exact literal prefix. -/
def dropLit : List Char → List Char → Option (List Char)
  | [], s => some s
  | _ :: _, [] => none
  | l :: ls, c :: cs => if c = l then dropLit ls cs else none

/-- Consume one character as the regex `.` does: any character except a
newline. -/
def headAny : List Char → Option (Char × List Char)
  | [] => none
  | c :: cs => if c = '\n' then none else some (c, cs)

/-- Consume a maximal run of decimal digits (the greedy `\d+`, which is
followed by a literal `/` in both uses, so greedy matching is exact). -/
def takeDigits : List Char → List Char × List Char
  | [] => ([], [])
  | c :: cs =>
    if c.isDigit then
      let p := takeDigits cs
      (c :: p.1, p.2)
    else ([], c :: cs)

/-- Match the sticker-style pattern at the start of `s`, returning
`(group 1, group 2)` — the full URL and the embedded numeric id — on
success.  This is the anchored form of the script's
`background-image:url\((https://stickershop.line-scdn.net/stickershop/v\d+/sticker/(\d+)/android/sticker.png)(;compress=true)?\);`. -/
def stickerMatchAt (s : List Char) : Option (String × String) := do
  let s ← dropLit "background-image:url(".toList s
  let s ← dropLit "https://stickershop".toList s
  let (c1, s) ← headAny s
  let s ← dropLit "line-scdn".toList s
  let (c2, s) ← headAny s
  let s ← dropLit "net/stickershop/v".toList s
  let (d1, s) := takeDigits s
  if d1.isEmpty then none else do
  let s ← dropLit "/sticker/".toList s
  let (d2, s) := takeDigits s
  if d2.isEmpty then none else do
  let s ← dropLit "/android/sticker".toList s
  let (c3, s) ← headAny s
  let s ← dropLit "png".toList s
  let s := (dropLit ";compress=true".toList s).getD s
  let _ ← dropLit ");".toList s
  let url := "https://stickershop".toList ++ [c1] ++ "line-scdn".toList ++ [c2]
      ++ "net/stickershop/v".toList ++ d1 ++ "/sticker/".toList ++ d2
      ++ "/android/sticker".toList ++ [c3] ++ "png".toList
  pure (String.mk url, String.mk d2)

/-- Python's `re.search` for the sticker-style pattern: the first
position, scanning left to right, where the pattern matches. -/
def stickerSearch : List Char → Option (String × String)
  | [] => none
  | s@(_ :: rest) =>
    match stickerMatchAt s with
    | some r => some r
    | none => stickerSearch rest

/-- Whether the first list is a prefix of the second. -/
def startsWithChars : List Char → List Char → Bool
  | [], _ => true
  | _ :: _, [] => false
  | p :: ps, c :: cs => p = c && startsWithChars ps cs

/-- Whether the node's `class` attribute matches
`re.compile(r".*Image$")`: some class token ends with `Image` (checked
on reversed character lists; class tokens contain no newline, so `$`
and `.*` reduce to a suffix test). -/
def classMatches (classes : List String) : Bool :=
  classes.any fun c => startsWithChars "Image".toList.reverse c.toList.reverse

/-- The `re.search(pattern, tag["style"])` of line 124, `none` when the
node has no style attribute. -/
def styleExtract (n : HNode) : Option (String × String) :=
  match n.style with
  | some st => stickerSearch st.toList
  | none => none

/-- The `soup.find_all(attrs={"class": ..., "style": ...})` of lines
119-121: the nodes, in document order, whose class matches `.*Image$` and
whose style matches the sticker pattern. -/
def matchingNodes (nodes : List HNode) : List HNode :=
  nodes.filter fun n => classMatches n.classes && (styleExtract n).isSome

/-- Insertion into the `sticker_data` dict with Python semantics: an
existing key keeps its position and gets the new value, a new key is
appended. -/
def dictInsert (d : List (String × StickerRecord)) (k : String) (v : StickerRecord) :
    List (String × StickerRecord) :=
  if d.any fun p => p.1 = k then
    d.map fun p => if p.1 = k then (k, v) else p
  else d ++ [(k, v)]

/-- Loop body of lines 123-125: re-search the style and store
`{"url": match.group(1)}` under key `match.group(2)`. -/
def insertTag (acc : List (String × StickerRecord)) (n : HNode) : List (String × StickerRecord) :=
  match styleExtract n with
  | some (url, sid) => dictInsert acc sid ⟨url, none, none⟩
  | none => acc

/-- The Source Lister, `get_stickers_urls` (lines 109-126), given the
already-fetched page (a fatal page-level fetch failure happens before
this logic and is outside it): select the matching nodes, then fold the
dict-building loop over them. -/
def get_stickers_urls (nodes : List HNode) : List (String × StickerRecord) :=
  (matchingNodes nodes).foldl insertTag []

/-- The entry a matching node contributes: key `match.group(2)`, value
`{"url": match.group(1)}`. -/
def tagEntry (n : HNode) : Option (String × StickerRecord) :=
  (styleExtract n).map fun p => (p.2, ⟨p.1, none, none⟩)

/-! ## Publisher lemmas -/

/-- Once `created` is true it stays true for the rest of the loop
(line 77 `created = True` runs after every non-breaking iteration, and
the `break` is unreachable with `created` true). -/
theorem publishLoop_created_of_true (api : ApiCall → Bool) (n t : String) :
    ∀ items : List (String × StickerRecord), (publishLoop api n t items true).created = true := by
  intro items
  induction items with
  | nil => rfl
  | cons q rest ih =>
    obtain ⟨sid, r⟩ := q
    cases hr : r.resized_path with
    | none => simp [publishLoop, hr, ih]
    | some path =>
      by_cases hapi : api (ApiCall.append n path) = true <;>
        simp [publishLoop, hr, hapi, ih]

/-- Every remote call the loop issues is addressed to the sticker-set
name the loop was started with. -/
theorem publishLoop_calls_name (api : ApiCall → Bool) (n t : String) :
    ∀ (items : List (String × StickerRecord)) (created : Bool) (c : ApiCall),
      c ∈ (publishLoop api n t items created).calls → callName c = n := by
  intro items
  induction items with
  | nil => intro created c hc; simp [publishLoop] at hc
  | cons q rest ih =>
    intro created c hc
    obtain ⟨sid, r⟩ := q
    cases hr : r.resized_path with
    | none =>
      simp only [publishLoop, hr] at hc
      exact ih created c hc
    | some path =>
      cases created with
      | false =>
        by_cases hapi : api (ApiCall.create n t path) = true <;>
          simp [publishLoop, hr, hapi] at hc
        · rcases hc with hc | hc
          · rw [hc]; rfl
          · exact ih true c hc
        · rw [hc]; rfl
      | true =>
        by_cases hapi : api (ApiCall.append n path) = true <;>
          simp [publishLoop, hr, hapi] at hc <;>
          rcases hc with hc | hc
        · rw [hc]; rfl
        · exact ih true c hc
        · rw [hc]; rfl
        · exact ih true c hc

/-- Starting from `created = False`, the final value of `created` is
exactly "some issued create call succeeded". -/
theorem publishLoop_created_eq (api : ApiCall → Bool) (n t : String) :
    ∀ items : List (String × StickerRecord),
      (publishLoop api n t items false).created =
        ((publishLoop api n t items false).calls.any fun c => isCreate c && api c) := by
  intro items
  induction items with
  | nil => rfl
  | cons q rest ih =>
    obtain ⟨sid, r⟩ := q
    cases hr : r.resized_path with
    | none => simpa [publishLoop, hr] using ih
    | some path =>
      by_cases hapi : api (ApiCall.create n t path) = true
      · simp [publishLoop, hr, hapi, isCreate, publishLoop_created_of_true]
      · simp [publishLoop, hr, hapi, isCreate]

/-- When every item of the list has an absent resized file, the loop
skips them all: no call is issued and `created` is returned unchanged. -/
theorem publishLoop_all_absent (api : ApiCall → Bool) (n t : String) :
    ∀ (items : List (String × StickerRecord)) (created : Bool),
      (∀ q ∈ items, (q : String × StickerRecord).2.resized_path = none) →
      publishLoop api n t items created =
        ⟨items.map fun q => (q.1, Outcome.skipped), created, []⟩ := by
  intro items
  induction items with
  | nil => intro created _; rfl
  | cons q rest ih =>
    intro created h
    obtain ⟨sid, r⟩ := q
    have hr : r.resized_path = none := h (sid, r) (List.mem_cons_self _ _)
    have hrest : ∀ x ∈ rest, (x : String × StickerRecord).2.resized_path = none :=
      fun x hx => h x (List.mem_cons_of_mem _ hx)
    simp [publishLoop, hr, ih created hrest]

/-- When every item before the first present one is absent, the failed
create call aborts the loop: the present item is marked failed, the
earlier ones skipped, the later ones not attempted, and the one create
call is the only call ever issued. -/
theorem publishLoop_first_create_fails (api : ApiCall → Bool) (n t : String)
    (sid : String) (r : StickerRecord) (p : String)
    (rest : List (String × StickerRecord))
    (hr : r.resized_path = some p) (hfail : api (ApiCall.create n t p) = false) :
    ∀ pre : List (String × StickerRecord),
      (∀ q ∈ pre, (q : String × StickerRecord).2.resized_path = none) →
      publishLoop api n t (pre ++ (sid, r) :: rest) false =
        ⟨(pre.map fun q => (q.1, Outcome.skipped)) ++
           (sid, Outcome.failed) :: rest.map fun q => (q.1, Outcome.notAttempted),
         false, [ApiCall.create n t p]⟩ := by
  intro pre
  induction pre with
  | nil =>
    intro _
    simp [publishLoop, hr, hfail]
  | cons q pre ih =>
    intro h
    obtain ⟨qs, qr⟩ := q
    have hq : qr.resized_path = none := h (qs, qr) (List.mem_cons_self _ _)
    have hpre : ∀ x ∈ pre, (x : String × StickerRecord).2.resized_path = none :=
      fun x hx => h x (List.mem_cons_of_mem _ hx)
    simp [publishLoop, hq, ih hpre]

/-! ## Claim theorems for the Publisher -/

/-- C1: in `create_telegram_sticker_set`, if the first create call —
issued for the first item whose resized file is present, every earlier
item being skipped as absent — fails with a `TelegramError`, the loop
terminates immediately: that item's outcome is failed, the remaining
items are not attempted, no append call is ever issued (the one create
call is the entire call trace), and no set name is returned. -/
theorem C1_create_failure_aborts (api : ApiCall → Bool) (bot name title : String)
    (pre : List (String × StickerRecord)) (sid : String) (r : StickerRecord)
    (p : String) (rest : List (String × StickerRecord))
    (hpre : ∀ q ∈ pre, (q : String × StickerRecord).2.resized_path = none)
    (hr : r.resized_path = some p)
    (hfail : api (ApiCall.create (name ++ "_by_" ++ bot) title p) = false) :
    create_telegram_sticker_set api bot (pre ++ (sid, r) :: rest) name title =
      ⟨pre ++ (sid, r) :: rest,
       (pre.map fun q => (q.1, Outcome.skipped)) ++
         (sid, Outcome.failed) :: rest.map fun q => (q.1, Outcome.notAttempted),
       none, [ApiCall.create (name ++ "_by_" ++ bot) title p]⟩ := by
  simp only [create_telegram_sticker_set]
  rw [publishLoop_first_create_fails api (name ++ "_by_" ++ bot) title sid r p rest hr hfail
      pre hpre]
  rfl

/-- Witness for C1 at a concrete three-item batch `[A, B, C]` whose every
call fails: creating with `A` fails, `B` and `C` are not attempted, no
append call is issued. -/
theorem C1_create_failure_aborts_witness :
    create_telegram_sticker_set (fun _ => false) "bot"
        ([] ++ ("A", (⟨"ua", some "ra", some "pa"⟩ : StickerRecord)) ::
          [("B", ⟨"ub", some "rb", some "pb"⟩), ("C", ⟨"uc", some "rc", some "pc"⟩)])
        "nm" "t" =
      ⟨[] ++ ("A", (⟨"ua", some "ra", some "pa"⟩ : StickerRecord)) ::
          [("B", ⟨"ub", some "rb", some "pb"⟩), ("C", ⟨"uc", some "rc", some "pc"⟩)],
       [("A", Outcome.failed), ("B", Outcome.notAttempted), ("C", Outcome.notAttempted)],
       none, [ApiCall.create ("nm" ++ "_by_" ++ "bot") "t" "pa"]⟩ :=
  C1_create_failure_aborts (fun _ => false) "bot" "nm" "t" []
    "A" ⟨"ua", some "ra", some "pa"⟩ "pa"
    [("B", ⟨"ub", some "rb", some "pb"⟩), ("C", ⟨"uc", some "rc", some "pc"⟩)]
    (by simp) rfl rfl

/-- C4: once the create call has succeeded, a failed append is
non-fatal: for items `[A, B, C]` all present, if creating with `A`
succeeds, appending `B` fails and appending `C` succeeds, the outcomes
are `A` published, `B` failed, `C` published, all three calls are
issued in order, and the set name is returned. -/
theorem C4_append_failure_nonfatal (api : ApiCall → Bool) (bot name title : String)
    (ia ib ic : String) (ra rb rc : StickerRecord) (pa pb pc : String)
    (ha : ra.resized_path = some pa) (hb : rb.resized_path = some pb)
    (hc : rc.resized_path = some pc)
    (h1 : api (ApiCall.create (name ++ "_by_" ++ bot) title pa) = true)
    (h2 : api (ApiCall.append (name ++ "_by_" ++ bot) pb) = false)
    (h3 : api (ApiCall.append (name ++ "_by_" ++ bot) pc) = true) :
    create_telegram_sticker_set api bot [(ia, ra), (ib, rb), (ic, rc)] name title =
      ⟨[(ia, ra), (ib, rb), (ic, rc)],
       [(ia, Outcome.published), (ib, Outcome.failed), (ic, Outcome.published)],
       some (name ++ "_by_" ++ bot),
       [ApiCall.create (name ++ "_by_" ++ bot) title pa,
        ApiCall.append (name ++ "_by_" ++ bot) pb,
        ApiCall.append (name ++ "_by_" ++ bot) pc]⟩ := by
  simp [create_telegram_sticker_set, publishLoop, ha, hb, hc, h1, h2, h3]

/-- Witness for C4 at a concrete three-item batch where exactly the
append of `pb` fails. -/
theorem C4_append_failure_nonfatal_witness :
    create_telegram_sticker_set
        (fun c => match c with
          | ApiCall.append _ p => if p = "pb" then false else true
          | ApiCall.create _ _ _ => true)
        "bot"
        [("A", ⟨"ua", some "ra", some "pa"⟩), ("B", ⟨"ub", some "rb", some "pb"⟩),
         ("C", ⟨"uc", some "rc", some "pc"⟩)] "nm" "t" =
      ⟨[("A", ⟨"ua", some "ra", some "pa"⟩), ("B", ⟨"ub", some "rb", some "pb"⟩),
        ("C", ⟨"uc", some "rc", some "pc"⟩)],
       [("A", Outcome.published), ("B", Outcome.failed), ("C", Outcome.published)],
       some ("nm" ++ "_by_" ++ "bot"),
       [ApiCall.create ("nm" ++ "_by_" ++ "bot") "t" "pa",
        ApiCall.append ("nm" ++ "_by_" ++ "bot") "pb",
        ApiCall.append ("nm" ++ "_by_" ++ "bot") "pc"]⟩ :=
  C4_append_failure_nonfatal
    (fun c => match c with
      | ApiCall.append _ p => if p = "pb" then false else true
      | ApiCall.create _ _ _ => true)
    "bot" "nm" "t" "A" "B" "C"
    ⟨"ua", some "ra", some "pa"⟩ ⟨"ub", some "rb", some "pb"⟩ ⟨"uc", some "rc", some "pc"⟩
    "pa" "pb" "pc" rfl rfl rfl rfl rfl rfl

/-- C5: absence propagates without failing the batch.  An item whose
`raw_path` is `None` makes `resize_stickers` record an absent
`resized_path` without decoding, resizing or saving anything and
without aborting (the batch result is the rest's result with that item
prepended, errors included unchanged); an item whose `resized_path` is
`None` makes the publish loop record outcome skipped without issuing
any remote call, continuing with the rest unchanged. -/
theorem C5_absence_propagates (decode : String → Option (Nat × Nat)) (dir : String)
    (api : ApiCall → Bool) (name title : String) (sid1 sid2 : String)
    (r1 r2 : StickerRecord) (rest1 : List (String × StickerRecord)) (fs : List String)
    (rest2 : List (String × StickerRecord)) (created : Bool)
    (h1 : r1.raw_path = none) (h2 : r2.resized_path = none) :
    resize_stickers decode dir ((sid1, r1) :: rest1) fs =
      Except.map
        (fun res => ⟨(sid1, ⟨r1.url, r1.raw_path, none⟩) :: res.records, res.fs, res.saved⟩)
        (resize_stickers decode dir rest1 fs)
    ∧ publishLoop api name title ((sid2, r2) :: rest2) created =
        ⟨(sid2, Outcome.skipped) :: (publishLoop api name title rest2 created).outcomes,
         (publishLoop api name title rest2 created).created,
         (publishLoop api name title rest2 created).calls⟩ := by
  constructor
  · cases hres : resize_stickers decode dir rest1 fs with
    | ok res => simp [resize_stickers, h1, hres, Except.map]
    | error e => simp [resize_stickers, h1, hres, Except.map]
  · simp [publishLoop, h2]

/-- Witness for C5 at a concrete absent item in each stage. -/
theorem C5_absence_propagates_witness :
    resize_stickers (fun _ => none) "d" [("1", (⟨"u1", none, none⟩ : StickerRecord))] [] =
      Except.map
        (fun res => ⟨("1", (⟨"u1", none, none⟩ : StickerRecord)) :: res.records,
          res.fs, res.saved⟩)
        (resize_stickers (fun _ => none) "d" [] [])
    ∧ publishLoop (fun _ => true) "nm" "t" [("2", (⟨"u2", some "r2", none⟩ : StickerRecord))]
          false =
        ⟨("2", Outcome.skipped) :: (publishLoop (fun _ => true) "nm" "t" [] false).outcomes,
         (publishLoop (fun _ => true) "nm" "t" [] false).created,
         (publishLoop (fun _ => true) "nm" "t" [] false).calls⟩ :=
  C5_absence_propagates (fun _ => none) "d" (fun _ => true) "nm" "t" "1" "2"
    ⟨"u1", none, none⟩ ⟨"u2", some "r2", none⟩ [] [] [] false rfl rfl

/-- C7: the Publisher returns a set name exactly when the create call
succeeded, and the name it returns — and the name every issued call,
create or append, is addressed to — is the requested name suffixed with
`_by_<botusername>`, fixed once before the loop. -/
theorem C7_final_name (api : ApiCall → Bool) (bot : String)
    (data : List (String × StickerRecord)) (name title : String) :
    (create_telegram_sticker_set api bot data name title).setName =
      (if ((create_telegram_sticker_set api bot data name title).calls.any
            fun c => isCreate c && api c) = true
       then some (name ++ "_by_" ++ bot) else none)
    ∧ ∀ c ∈ (create_telegram_sticker_set api bot data name title).calls,
        callName c = name ++ "_by_" ++ bot := by
  constructor
  · simp only [create_telegram_sticker_set]
    simp only [publishLoop_created_eq api (name ++ "_by_" ++ bot) title data]
  · intro c hc
    simp only [create_telegram_sticker_set] at hc
    exact publishLoop_calls_name api (name ++ "_by_" ++ bot) title data false c hc

/-- C10: when every item's resized file is absent (in particular when
the mapping is empty), the Publisher issues no create or append call at
all, returns `None` as the set name, and returns the records
unchanged. -/
theorem C10_all_absent_no_calls (api : ApiCall → Bool) (bot : String)
    (data : List (String × StickerRecord)) (name title : String)
    (h : ∀ q ∈ data, (q : String × StickerRecord).2.resized_path = none) :
    create_telegram_sticker_set api bot data name title =
      ⟨data, data.map fun q => (q.1, Outcome.skipped), none, []⟩ := by
  simp only [create_telegram_sticker_set]
  rw [publishLoop_all_absent api (name ++ "_by_" ++ bot) title data false h]
  rfl

/-- Witness for C10 at a concrete batch of one absent item. -/
theorem C10_all_absent_no_calls_witness :
    create_telegram_sticker_set (fun _ => true) "bot"
        [("7", (⟨"u", some "raw", none⟩ : StickerRecord))] "nm" "t" =
      ⟨[("7", (⟨"u", some "raw", none⟩ : StickerRecord))], [("7", Outcome.skipped)],
       none, []⟩ :=
  C10_all_absent_no_calls (fun _ => true) "bot" [("7", ⟨"u", some "raw", none⟩)] "nm" "t"
    (by simp)

/-! ## Fetcher lemmas -/

/-- The Fetcher never removes files: every path present before a
successful run is present after it. -/
theorem download_fs_mono (http : String → Except HttpFailure String) (dir : String) :
    ∀ (items : List (String × StickerRecord)) (fs : List String) (res : FetchResult),
      download_stickers http dir items fs = Except.ok res → ∀ x ∈ fs, x ∈ res.fs := by
  intro items
  induction items with
  | nil =>
    intro fs res h x hx
    simp only [download_stickers, Except.ok.injEq] at h
    subst h
    exact hx
  | cons q rest ih =>
    intro fs res h x hx
    obtain ⟨sid, r⟩ := q
    by_cases hf : (dir ++ "/" ++ sid ++ ".png") ∈ fs
    · cases hrec : download_stickers http dir rest fs with
      | ok res2 =>
        simp [download_stickers, hf, hrec] at h
        subst h
        exact ih fs res2 hrec x hx
      | error e => simp [download_stickers, hf, hrec] at h
    · cases hhttp : http r.url with
      | ok body =>
        cases hrec : download_stickers http dir rest ((dir ++ "/" ++ sid ++ ".png") :: fs) with
        | ok res2 =>
          simp [download_stickers, hf, hhttp, hrec] at h
          subst h
          exact ih _ res2 hrec x (List.mem_cons_of_mem _ hx)
        | error e => simp [download_stickers, hf, hhttp, hrec] at h
      | error err =>
        cases err with
        | status m =>
          cases hrec : download_stickers http dir rest fs with
          | ok res2 =>
            simp [download_stickers, hf, hhttp, hrec] at h
            subst h
            exact ih fs res2 hrec x hx
          | error e => simp [download_stickers, hf, hhttp, hrec] at h
        | transport m => simp [download_stickers, hf, hhttp] at h

/-- A second Fetcher run over the same mapping, starting from the
filesystem a fully successful first run left behind, finds every file
cached: it issues no network call and reproduces the first run's
records and filesystem. -/
theorem download_second_run (http : String → Except HttpFailure String) (dir : String) :
    ∀ (items : List (String × StickerRecord)) (fs : List String) (res : FetchResult),
      download_stickers http dir items fs = Except.ok res →
      (∀ q ∈ res.records, (q : String × StickerRecord).2.raw_path.isSome = true) →
      download_stickers http dir items res.fs = Except.ok ⟨res.records, res.fs, []⟩ := by
  intro items
  induction items with
  | nil =>
    intro fs res h _
    simp only [download_stickers, Except.ok.injEq] at h
    subst h
    rfl
  | cons q rest ih =>
    intro fs res h hall
    obtain ⟨sid, r⟩ := q
    by_cases hf : (dir ++ "/" ++ sid ++ ".png") ∈ fs
    · cases hrec : download_stickers http dir rest fs with
      | ok res2 =>
        simp [download_stickers, hf, hrec] at h
        subst h
        have hall2 : ∀ q ∈ res2.records, (q : String × StickerRecord).2.raw_path.isSome = true :=
          fun q hq => hall q (List.mem_cons_of_mem _ hq)
        have hmem : (dir ++ "/" ++ sid ++ ".png") ∈ res2.fs :=
          download_fs_mono http dir rest fs res2 hrec _ hf
        have ih2 := ih fs res2 hrec hall2
        simp [download_stickers, hmem, ih2]
      | error e => simp [download_stickers, hf, hrec] at h
    · cases hhttp : http r.url with
      | ok body =>
        cases hrec : download_stickers http dir rest ((dir ++ "/" ++ sid ++ ".png") :: fs) with
        | ok res2 =>
          simp [download_stickers, hf, hhttp, hrec] at h
          subst h
          have hall2 : ∀ q ∈ res2.records,
              (q : String × StickerRecord).2.raw_path.isSome = true :=
            fun q hq => hall q (List.mem_cons_of_mem _ hq)
          have hmem : (dir ++ "/" ++ sid ++ ".png") ∈ res2.fs :=
            download_fs_mono http dir rest _ res2 hrec _ (List.mem_cons_self _ _)
          have ih2 := ih _ res2 hrec hall2
          simp [download_stickers, hmem, ih2]
        | error e => simp [download_stickers, hf, hhttp, hrec] at h
      | error err =>
        cases err with
        | status m =>
          cases hrec : download_stickers http dir rest fs with
          | ok res2 =>
            simp [download_stickers, hf, hhttp, hrec] at h
            subst h
            have hbad := hall (sid, ⟨r.url, none, r.resized_path⟩) (List.mem_cons_self _ _)
            simp at hbad
          | error e => simp [download_stickers, hf, hhttp, hrec] at h
        | transport m => simp [download_stickers, hf, hhttp] at h

/-! ## Claim theorems for the Fetcher -/

/-- C3 (amended): a GET that fails with a non-success HTTP status
(`requests.HTTPError` raised by `raise_for_status`) is caught for that
item: its `raw_path` becomes `None`, a warning is printed, and the loop
continues with the remaining items, the rest's result (errors included)
passing through unchanged.  A transport-level failure, however, is not a
`requests.HTTPError` and is *not* caught: it aborts the whole batch with
the uncaught exception. -/
theorem C3_http_error_caught_transport_fatal (http : String → Except HttpFailure String)
    (dir : String) (sid1 sid2 : String) (r1 r2 : StickerRecord)
    (rest1 rest2 : List (String × StickerRecord)) (fs1 fs2 : List String) (m1 m2 : String)
    (hc1 : (dir ++ "/" ++ sid1 ++ ".png") ∉ fs1)
    (h1 : http r1.url = Except.error (HttpFailure.status m1))
    (hc2 : (dir ++ "/" ++ sid2 ++ ".png") ∉ fs2)
    (h2 : http r2.url = Except.error (HttpFailure.transport m2)) :
    download_stickers http dir ((sid1, r1) :: rest1) fs1 =
      Except.map
        (fun res => ⟨(sid1, ⟨r1.url, none, r1.resized_path⟩) :: res.records,
          res.fs, r1.url :: res.calls⟩)
        (download_stickers http dir rest1 fs1)
    ∧ download_stickers http dir ((sid2, r2) :: rest2) fs2 = Except.error m2 := by
  constructor
  · cases hrec : download_stickers http dir rest1 fs1 with
    | ok res => simp [download_stickers, hc1, h1, hrec, Except.map]
    | error e => simp [download_stickers, hc1, h1, hrec, Except.map]
  · simp [download_stickers, hc2, h2]

/-- Witness for C3's amended statement: a 404 on the first item is
recorded as absent and the loop continues; a connection error on
another item kills the batch. -/
theorem C3_http_error_caught_transport_fatal_witness :
    download_stickers
        (fun u => if u = "u1" then Except.error (HttpFailure.status "404")
                  else Except.error (HttpFailure.transport "ConnectionError")) "d"
        [("1", (⟨"u1", none, none⟩ : StickerRecord))] [] =
      Except.map
        (fun res => ⟨("1", (⟨"u1", none, none⟩ : StickerRecord)) :: res.records,
          res.fs, "u1" :: res.calls⟩)
        (download_stickers
          (fun u => if u = "u1" then Except.error (HttpFailure.status "404")
                    else Except.error (HttpFailure.transport "ConnectionError")) "d" [] [])
    ∧ download_stickers
        (fun u => if u = "u1" then Except.error (HttpFailure.status "404")
                  else Except.error (HttpFailure.transport "ConnectionError")) "d"
        [("2", (⟨"u2", none, none⟩ : StickerRecord)), ("3", ⟨"u3", none, none⟩)] [] =
      Except.error "ConnectionError" :=
  C3_http_error_caught_transport_fatal
    (fun u => if u = "u1" then Except.error (HttpFailure.status "404")
              else Except.error (HttpFailure.transport "ConnectionError"))
    "d" "1" "2" ⟨"u1", none, none⟩ ⟨"u2", none, none⟩ [] [("3", ⟨"u3", none, none⟩)] [] []
    "404" "ConnectionError" (by simp) rfl (by simp) rfl

/-- Counterexample to C3 as stated: with a transport error on the first
item's GET, the batch does not record `absent` and continue — the whole
run dies with the uncaught exception and no item is processed. -/
theorem C3_transport_counterexample :
    download_stickers (fun _ => Except.error (HttpFailure.transport "ConnectionError")) "d"
        [("1", (⟨"u1", none, none⟩ : StickerRecord)), ("2", ⟨"u2", none, none⟩)] [] =
      Except.error "ConnectionError"
    ∧ (download_stickers (fun _ => Except.error (HttpFailure.transport "ConnectionError")) "d"
        [("1", (⟨"u1", none, none⟩ : StickerRecord)), ("2", ⟨"u2", none, none⟩)] []).isOk
        = false :=
  ⟨rfl, rfl⟩

/-- C9 (amended): the Fetcher is idempotent through the on-disk cache
*for items whose file exists*: when every item of a first successful run
ended with a present `raw_path` (downloaded or already cached), a second
run over the same mapping and the resulting storage directory issues
zero network calls and returns the identical mapping and filesystem.
(Items whose first-run GET failed leave no file and are re-attempted —
see the counterexample.) -/
theorem C9_cache_idempotent (http : String → Except HttpFailure String) (dir : String)
    (items : List (String × StickerRecord)) (fs : List String) (res : FetchResult)
    (h : download_stickers http dir items fs = Except.ok res)
    (hall : ∀ q ∈ res.records, (q : String × StickerRecord).2.raw_path.isSome = true) :
    download_stickers http dir items res.fs = Except.ok ⟨res.records, res.fs, []⟩ :=
  download_second_run http dir items fs res h hall

/-- Witness for C9's amended statement: one item, downloaded on the
first run, found on disk on the second: no network call. -/
theorem C9_cache_idempotent_witness :
    download_stickers (fun _ => Except.ok "png") "d"
        [("1", (⟨"u", none, none⟩ : StickerRecord))] ["d/1.png"] =
      Except.ok ⟨[("1", ⟨"u", some "d/1.png", none⟩)], ["d/1.png"], []⟩ :=
  C9_cache_idempotent (fun _ => Except.ok "png") "d" [("1", ⟨"u", none, none⟩)] []
    ⟨[("1", ⟨"u", some "d/1.png", none⟩)], ["d/1.png"], ["u"]⟩ rfl (by decide)

/-- Counterexample to C9 as stated: when an item's first-run GET fails
with an HTTP error, no file is cached, so the second run over the same
mapping and storage directory (the first run returns the filesystem
unchanged, here `[]`) issues a network call again: its call list is
`["u"]`, not `[]`. -/
theorem C9_retry_counterexample :
    download_stickers (fun _ => Except.error (HttpFailure.status "404")) "d"
        [("1", (⟨"u", none, none⟩ : StickerRecord))] [] =
      Except.ok ⟨[("1", ⟨"u", none, none⟩)], [], ["u"]⟩
    ∧ ¬ ∀ res2 : FetchResult,
        download_stickers (fun _ => Except.error (HttpFailure.status "404")) "d"
          [("1", (⟨"u", none, none⟩ : StickerRecord))] [] = Except.ok res2 →
        res2.calls = [] := by
  constructor
  · rfl
  · intro hcl
    have h2 := hcl ⟨[("1", ⟨"u", none, none⟩)], [], ["u"]⟩ rfl
    simp at h2

/-! ## Transcoder lemmas -/

/-- Longer-side invariant of the dimension computation: as soon as the
source image has a positive longer side, the output's longer side is
exactly 512 and its shorter side is at most 512. -/
theorem resizeDims_longer (w h : Nat) (hpos : 0 < max w h) :
    max (resizeDims w h).1 (resizeDims w h).2 = 512 ∧
    min (resizeDims w h).1 (resizeDims w h).2 ≤ 512 := by
  rcases Nat.le_total w h with hle | hle
  · have hm : max w h = h := Nat.max_eq_right hle
    have hh : 0 < h := hm ▸ hpos
    have e2 : (resizeDims w h).2 = 512 := by
      simp only [resizeDims, hm]
      exact Nat.mul_div_cancel_left 512 hh
    have e1 : (resizeDims w h).1 ≤ 512 := by
      simp only [resizeDims, hm]
      calc w * 512 / h ≤ h * 512 / h := Nat.div_le_div_right (Nat.mul_le_mul_right 512 hle)
        _ = 512 := Nat.mul_div_cancel_left 512 hh
    constructor
    · rw [e2, Nat.max_eq_right e1]
    · rw [e2]; exact le_trans (min_le_left _ _) e1
  · have hm : max w h = w := Nat.max_eq_left hle
    have hw : 0 < w := hm ▸ hpos
    have e1 : (resizeDims w h).1 = 512 := by
      simp only [resizeDims, hm]
      exact Nat.mul_div_cancel_left 512 hw
    have e2 : (resizeDims w h).2 ≤ 512 := by
      simp only [resizeDims, hm]
      calc h * 512 / w ≤ w * 512 / w := Nat.div_le_div_right (Nat.mul_le_mul_right 512 hle)
        _ = 512 := Nat.mul_div_cancel_left 512 hw
    constructor
    · rw [e1, Nat.max_eq_left e2]
    · rw [e1]; exact le_trans (min_le_right _ _) e2

/-- Every image a successful Transcoder run saved was produced by the
dimension computation of lines 198-202 from decoded dimensions with a
positive longer side (a zero longer side raises `ZeroDivisionError`
instead of saving). -/
theorem resize_saved_dims (decode : String → Option (Nat × Nat)) (dir : String) :
    ∀ (items : List (String × StickerRecord)) (fs : List String) (res : ResizeResult),
      resize_stickers decode dir items fs = Except.ok res →
      ∀ e ∈ res.saved,
        e.newW = e.rawW * 512 / max e.rawW e.rawH ∧
        e.newH = e.rawH * 512 / max e.rawW e.rawH ∧
        0 < max e.rawW e.rawH := by
  intro items
  induction items with
  | nil =>
    intro fs res h e he
    simp only [resize_stickers, Except.ok.injEq] at h
    subst h
    simp at he
  | cons q rest ih =>
    intro fs res h e he
    obtain ⟨sid, r⟩ := q
    cases hraw : r.raw_path with
    | none =>
      cases hrec : resize_stickers decode dir rest fs with
      | ok res2 =>
        simp [resize_stickers, hraw, hrec] at h
        subst h
        exact ih fs res2 hrec e he
      | error er => simp [resize_stickers, hraw, hrec] at h
    | some rp =>
      by_cases hcache : (dir ++ "/" ++ sid ++ ".resized.png") ∈ fs
      · cases hrec : resize_stickers decode dir rest fs with
        | ok res2 =>
          simp [resize_stickers, hraw, hcache, hrec] at h
          subst h
          exact ih fs res2 hrec e he
        | error er => simp [resize_stickers, hraw, hcache, hrec] at h
      · cases hdec : decode rp with
        | none => simp [resize_stickers, hraw, hcache, hdec] at h
        | some wh =>
          obtain ⟨w, hh⟩ := wh
          by_cases hz : max w hh = 0
          · simp [resize_stickers, hraw, hcache, hdec, hz] at h
          · cases hrec : resize_stickers decode dir rest
                ((dir ++ "/" ++ sid ++ ".resized.png") :: fs) with
            | ok res2 =>
              simp [resize_stickers, hraw, hcache, hdec, hz, hrec] at h
              subst h
              rcases List.mem_cons.mp he with he2 | he2
              · subst he2
                exact ⟨rfl, rfl, Nat.pos_of_ne_zero hz⟩
              · exact ih _ res2 hrec e he2
            | error er => simp [resize_stickers, hraw, hcache, hdec, hz, hrec] at h

/-! ## Claim theorems for the Transcoder -/

/-- C2 (amended): a present but corrupt/undecodable raw image whose
resized file is not already cached makes `Image.open` raise, and
`resize_stickers` has no try/except: the decode error is *not* caught
locally — the whole resize stage dies with the exception, the item's
resized result is never set and the remaining items are not
processed. -/
theorem C2_decode_error_fatal (decode : String → Option (Nat × Nat)) (dir : String)
    (sid : String) (r : StickerRecord) (rp : String)
    (rest : List (String × StickerRecord)) (fs : List String)
    (hraw : r.raw_path = some rp)
    (hcache : (dir ++ "/" ++ sid ++ ".resized.png") ∉ fs)
    (hdec : decode rp = none) :
    resize_stickers decode dir ((sid, r) :: rest) fs =
      Except.error "UnidentifiedImageError" := by
  simp [resize_stickers, hraw, hcache, hdec]

/-- Witness for C2's amended statement: one corrupt image kills the
whole resize stage. -/
theorem C2_decode_error_fatal_witness :
    resize_stickers (fun _ => none) "d"
        [("1", (⟨"u1", some "raw1", none⟩ : StickerRecord))] [] =
      Except.error "UnidentifiedImageError" :=
  C2_decode_error_fatal (fun _ => none) "d" "1" ⟨"u1", some "raw1", none⟩ "raw1" [] []
    rfl (by simp) rfl

/-- Counterexample to C2 as stated: with a corrupt first item and a
perfectly decodable second item, the batch does not continue with the
second item and the first item's result does not become absent — the
whole stage dies with the uncaught decode exception. -/
theorem C2_decode_counterexample :
    resize_stickers (fun p => if p = "raw1" then none else some (512, 512)) "d"
        [("1", (⟨"u1", some "raw1", none⟩ : StickerRecord)),
         ("2", ⟨"u2", some "raw2", none⟩)] [] =
      Except.error "UnidentifiedImageError"
    ∧ (resize_stickers (fun p => if p = "raw1" then none else some (512, 512)) "d"
        [("1", (⟨"u1", some "raw1", none⟩ : StickerRecord)),
         ("2", ⟨"u2", some "raw2", none⟩)] []).isOk = false :=
  ⟨rfl, rfl⟩

/-- C6: every image a successful Transcoder run saves has the dimensions
`floor(width / k) x floor(height / k)` for `k = max(width, height) / 512`
computed from its decoded raw dimensions, the longer output side is
exactly 512 and the shorter output side is at most 512. -/
theorem C6_resize_dimensions (decode : String → Option (Nat × Nat)) (dir : String)
    (items : List (String × StickerRecord)) (fs : List String)
    (recs : List (String × StickerRecord)) (fs2 : List String) (saved : List SavedImage)
    (h : resize_stickers decode dir items fs = Except.ok ⟨recs, fs2, saved⟩) :
    ∀ e ∈ saved,
      (e.newW, e.newH) = resizeDims e.rawW e.rawH ∧
      e.newW = e.rawW * 512 / max e.rawW e.rawH ∧
      e.newH = e.rawH * 512 / max e.rawW e.rawH ∧
      max e.newW e.newH = 512 ∧ min e.newW e.newH ≤ 512 := by
  intro e he
  obtain ⟨h1, h2, h3⟩ := resize_saved_dims decode dir items fs ⟨recs, fs2, saved⟩ h e he
  have hd := resizeDims_longer e.rawW e.rawH h3
  have hpair : (e.newW, e.newH) = resizeDims e.rawW e.rawH := by
    rw [h1, h2]; rfl
  refine ⟨hpair, h1, h2, ?_, ?_⟩
  · rw [h1, h2]; exact hd.1
  · rw [h1, h2]; exact hd.2

/-! ## Source Lister lemmas -/

/-- A `filterMap` whose function succeeds on every element keeps the
length. -/
theorem filterMap_length_of_isSome {α β : Type} (f : α → Option β) :
    ∀ l : List α, (∀ x ∈ l, (f x).isSome = true) → (l.filterMap f).length = l.length := by
  intro l
  induction l with
  | nil => intro _; rfl
  | cons a l ih =>
    intro h
    cases hfa : f a with
    | none => exact absurd (h a (List.mem_cons_self _ _)) (by simp [hfa])
    | some b =>
      simp [List.filterMap_cons, hfa, ih fun x hx => h x (List.mem_cons_of_mem _ hx)]

/-- The dict-building loop of lines 123-125, folded over tags whose
extracted keys are fresh and pairwise distinct, appends one entry per
tag in tag order. -/
theorem foldl_insertTag (tags : List HNode) :
    ∀ acc : List (String × StickerRecord),
      (acc.map Prod.fst ++ (tags.filterMap tagEntry).map Prod.fst).Nodup →
      tags.foldl insertTag acc = acc ++ tags.filterMap tagEntry := by
  induction tags with
  | nil => intro acc _; simp
  | cons n rest ih =>
    intro acc hnd
    cases hext : styleExtract n with
    | none =>
      have hte : tagEntry n = none := by simp [tagEntry, hext]
      have hstep : insertTag acc n = acc := by simp [insertTag, hext]
      have hnd2 : (acc.map Prod.fst ++ (rest.filterMap tagEntry).map Prod.fst).Nodup := by
        simpa [List.filterMap_cons, hte] using hnd
      rw [List.foldl_cons, hstep, ih acc hnd2]
      simp [List.filterMap_cons, hte]
    | some p =>
      obtain ⟨url, sid⟩ := p
      have hte : tagEntry n = some (sid, ⟨url, none, none⟩) := by simp [tagEntry, hext]
      have hnd2 : (acc.map Prod.fst ++
          sid :: (rest.filterMap tagEntry).map Prod.fst).Nodup := by
        simpa [List.filterMap_cons, hte] using hnd
      have hsid : sid ∉ acc.map Prod.fst := by
        intro hmem
        exact (List.nodup_append.mp hnd2).2.2 hmem (List.mem_cons_self _ _)
      have hnc : ¬ ((acc.any fun p => decide (p.1 = sid)) = true) := by
        intro hcond
        rcases List.any_eq_true.mp hcond with ⟨x, hx, hxe⟩
        exact hsid (List.mem_map.mpr ⟨x, hx, by simpa using hxe⟩)
      have hstep : insertTag acc n = acc ++ [(sid, ⟨url, none, none⟩)] := by
        simp only [insertTag, hext, dictInsert]
        rw [if_neg hnc]
      have hnd3 : ((acc ++ [(sid, (⟨url, none, none⟩ : StickerRecord))]).map Prod.fst ++
          (rest.filterMap tagEntry).map Prod.fst).Nodup := by
        simpa using hnd2
      rw [List.foldl_cons, hstep, ih _ hnd3]
      simp [List.filterMap_cons, hte]

/-! ## Claim theorem for the Source Lister -/

/-- C8: over any page whose matching nodes (class matching `.*Image$`
and style matching the background-image pattern) carry pairwise-distinct
embedded identifiers, `get_stickers_urls` returns exactly one entry per
matching node, keyed by the identifier extracted from that node's
matched URL and holding the matched URL, in document order;
non-matching nodes are silently skipped. -/
theorem C8_source_lister (nodes : List HNode)
    (h : (((matchingNodes nodes).filterMap tagEntry).map Prod.fst).Nodup) :
    get_stickers_urls nodes = (matchingNodes nodes).filterMap tagEntry
    ∧ (get_stickers_urls nodes).length = (matchingNodes nodes).length := by
  have hmain : get_stickers_urls nodes = (matchingNodes nodes).filterMap tagEntry := by
    have := foldl_insertTag (matchingNodes nodes) [] (by simpa using h)
    simpa [get_stickers_urls] using this
  refine ⟨hmain, ?_⟩
  rw [hmain]
  apply filterMap_length_of_isSome
  intro n hn
  have hmem : (classMatches n.classes && (styleExtract n).isSome) = true :=
    (List.mem_filter.mp (show n ∈ nodes.filter
      (fun m => classMatches m.classes && (styleExtract m).isSome) from hn)).2
  have h2 : (styleExtract n).isSome = true := by
    simp only [Bool.and_eq_true] at hmem
    exact hmem.2
  simpa [tagEntry] using h2

/-- Witness for C8 on a concrete page: two matching nodes with distinct
ids `123` and `456` (the second with the optional `;compress=true` and a
multi-token class attribute) and one unrelated node, yielding exactly
the two entries in document order. -/
theorem C8_source_lister_witness :
    get_stickers_urls
        [⟨["FnImage"],
          some "background-image:url(https://stickershop.line-scdn.net/stickershop/v1/sticker/123/android/sticker.png);"⟩,
         ⟨["mdBox", "StickerPreviewImage"],
          some "opacity:1;background-image:url(https://stickershop.line-scdn.net/stickershop/v10/sticker/456/android/sticker.png;compress=true);"⟩,
         ⟨["mdBox"], some "color:red;"⟩] =
      (matchingNodes
        [⟨["FnImage"],
          some "background-image:url(https://stickershop.line-scdn.net/stickershop/v1/sticker/123/android/sticker.png);"⟩,
         ⟨["mdBox", "StickerPreviewImage"],
          some "opacity:1;background-image:url(https://stickershop.line-scdn.net/stickershop/v10/sticker/456/android/sticker.png;compress=true);"⟩,
         ⟨["mdBox"], some "color:red;"⟩]).filterMap tagEntry
    ∧ (get_stickers_urls
        [⟨["FnImage"],
          some "background-image:url(https://stickershop.line-scdn.net/stickershop/v1/sticker/123/android/sticker.png);"⟩,
         ⟨["mdBox", "StickerPreviewImage"],
          some "opacity:1;background-image:url(https://stickershop.line-scdn.net/stickershop/v10/sticker/456/android/sticker.png;compress=true);"⟩,
         ⟨["mdBox"], some "color:red;"⟩]).length =
      (matchingNodes
        [⟨["FnImage"],
          some "background-image:url(https://stickershop.line-scdn.net/stickershop/v1/sticker/123/android/sticker.png);"⟩,
         ⟨["mdBox", "StickerPreviewImage"],
          some "opacity:1;background-image:url(https://stickershop.line-scdn.net/stickershop/v10/sticker/456/android/sticker.png;compress=true);"⟩,
         ⟨["mdBox"], some "color:red;"⟩]).length :=
  C8_source_lister
    [⟨["FnImage"],
      some "background-image:url(https://stickershop.line-scdn.net/stickershop/v1/sticker/123/android/sticker.png);"⟩,
     ⟨["mdBox", "StickerPreviewImage"],
      some "opacity:1;background-image:url(https://stickershop.line-scdn.net/stickershop/v10/sticker/456/android/sticker.png;compress=true);"⟩,
     ⟨["mdBox"], some "color:red;"⟩]
    (by decide : (["123", "456"] : List String).Nodup)

/-- Witness for C6: a 1024 x 768 image is saved at 512 x 384, the longer
side exactly 512, the shorter at most 512. -/
theorem C6_resize_dimensions_witness :
    ((512 : Nat), (384 : Nat)) = resizeDims 1024 768 ∧
    (512 : Nat) = 1024 * 512 / max 1024 768 ∧
    (384 : Nat) = 768 * 512 / max 1024 768 ∧
    max (512 : Nat) 384 = 512 ∧ min (512 : Nat) 384 ≤ 512 :=
  C6_resize_dimensions (fun _ => some (1024, 768)) "d"
    [("1", ⟨"u", some "raw", none⟩)] []
    [("1", ⟨"u", some "raw", some "d/1.resized.png"⟩)] ["d/1.resized.png"]
    [⟨"d/1.resized.png", 1024, 768, 512, 384⟩] rfl
    ⟨"d/1.resized.png", 1024, 768, 512, 384⟩ (List.mem_cons_self _ _)

end Lstt
